import Mathlib

/-!
Shallow embedding of the nuclei-mcp core: the TTL result cache
(`pkg/cache/cache.go`), the scan orchestrator (`pkg/scanner/scanner.go`)
and the JSON-RPC protocol dispatcher (`mcpserver`, the `Server` type).
Time is modelled as a natural number of abstract ticks; the Go code's
`time.Since(t) > expiry` becomes `now - t > expiry` on naturals.
Logging calls are side effects with no bearing on the data flow and are
dropped.  The external nuclei engine is modelled as a record of oracles
(one per SDK entry point the orchestrator calls), and the orchestrator
additionally reports how many times it constructed and executed an
engine, so that short-circuit and no-retry properties are statable.
-/

namespace NucleiMCP

/-- One finding event produced by the external engine
(`output.ResultEvent`; only the fields the orchestrator reads are kept,
the rest of the event is opaque payload). -/
structure ResultEvent where
  name : String
  severity : String
  host : String
deriving DecidableEq, Repr

/-- `cache.ScanResult`: target, scan timestamp and the ordered findings. -/
structure ScanResult where
  target : String
  scanTime : Nat
  findings : List ResultEvent
deriving DecidableEq, Repr

/-- The Go zero value `cache.ScanResult{}` returned on every error path. -/
def emptyScanResult : ScanResult := ⟨"", 0, []⟩

/-- Lookup in the cache's `map[string]ScanResult`, modelled as an
association list. -/
def mapGet : List (String × ScanResult) → String → Option ScanResult
  | [], _ => none
  | (k', v) :: rest, k => if k' = k then some v else mapGet rest k

/-- Map assignment `m[k] = v`: replaces the entry for `k` when present,
otherwise appends it. -/
def mapSet : List (String × ScanResult) → String → ScanResult → List (String × ScanResult)
  | [], k, v => [(k, v)]
  | (k', v') :: rest, k, v =>
    if k' = k then (k, v) :: rest else (k', v') :: mapSet rest k v

/-- `cache.ResultCache`: the keyed store plus its TTL (`expiry`). -/
structure ResultCache where
  cache : List (String × ScanResult)
  expiry : Nat
deriving DecidableEq, Repr

/-- `ResultCache.Get`: absent keys miss; present entries miss when
`time.Since(result.ScanTime) > c.expiry`, i.e. the expiry clock runs
from the stored result's own `ScanTime`. -/
def ResultCache.get (c : ResultCache) (now : Nat) (key : String) : Option ScanResult :=
  match mapGet c.cache key with
  | none => none
  | some result => if now - result.scanTime > c.expiry then none else some result

/-- `ResultCache.Set`: plain map assignment; the stored value is `result`
unchanged — no timestamp is stamped by `Set` itself. -/
def ResultCache.set (c : ResultCache) (key : String) (result : ScanResult) : ResultCache :=
  { c with cache := mapSet c.cache key result }

/-- `ResultCache.GetAll`: every stored value, with no expiry check. -/
def ResultCache.getAll (c : ResultCache) : List ScanResult :=
  c.cache.map (·.2)

/-! ## Scan orchestrator (`pkg/scanner/scanner.go`) -/

/-- `CreateCacheKey`: `fmt.Sprintf("%s:%s:%s", target, severity, protocols)`. -/
def createCacheKey (target severity protocols : String) : String :=
  target ++ ":" ++ severity ++ ":" ++ protocols

/-- `strings.Join(xs, ",")`. -/
def joinComma (xs : List String) : String :=
  String.intercalate "," xs

/-- The full cache key computed at the top of `Scan` / `ThreadSafeScan`:
`CreateCacheKey` plus, when `len(templateIDs) > 0`, the suffix
`":" + strings.Join(templateIDs, ",")` in caller-supplied order. -/
def scanCacheKey (target severity protocols : String) (templateIDs : List String) : String :=
  let cacheKey := createCacheKey target severity protocols
  if templateIDs.length > 0 then cacheKey ++ ":" ++ joinComma templateIDs else cacheKey

/-- The cache key computed by `BasicScan`: `fmt.Sprintf("basic:%s", target)`. -/
def basicScanKey (target : String) : String :=
  "basic:" ++ target

/-- Character-level worker for `strings.Split(s, ",")`. -/
def splitCommaAux : List Char → List (List Char)
  | [] => [[]]
  | c :: rest =>
    match splitCommaAux rest with
    | [] => [[]]
    | h :: t => if c = ',' then [] :: h :: t else (c :: h) :: t

/-- `strings.Split(s, ",")`. -/
def splitComma (s : String) : List String :=
  (splitCommaAux s.data).map fun l => ⟨l⟩

/-- `strings.TrimSpace` (the ASCII whitespace cases, which are the ones
the protocol strings can contain). -/
def trimSpace (s : String) : String :=
  ⟨((s.data.dropWhile Char.isWhitespace).reverse.dropWhile Char.isWhitespace).reverse⟩

/-- The `validProtocols` slice built inside `Scan`/`ThreadSafeScan`:
each comma-separated entry is trimmed, and entries equal to `"https"`
are skipped. -/
def validProtocols (protocols : String) : List String :=
  ((splitComma protocols).map trimSpace).filter fun p => p ≠ "https"

/-- `nuclei.TemplateFilters`, restricted to the fields this repository
sets. -/
structure TemplateFilters where
  severity : String
  protocolTypes : String
  ids : List String
  includeTags : List String
deriving DecidableEq, Repr

/-- The filter-construction block shared by `Scan` and `ThreadSafeScan`:
a `TemplateFilters` option is appended only when severity, protocols or
templateIDs is non-empty; `ProtocolTypes` is set only when the
https-stripped protocol list is non-empty. -/
def buildTemplateFilters (severity protocols : String) (templateIDs : List String) :
    Option TemplateFilters :=
  if severity ≠ "" ∨ protocols ≠ "" ∨ templateIDs.length > 0 then
    some
      { severity := if severity ≠ "" then severity else ""
        protocolTypes :=
          if protocols ≠ "" then
            if (validProtocols protocols).length > 0 then joinComma (validProtocols protocols)
            else ""
          else ""
        ids := if templateIDs.length > 0 then templateIDs else []
        includeTags := [] }
  else none

/-- The external nuclei engine at the orchestrator's boundary: one
oracle per SDK call the orchestrator makes, each either failing with an
error string or succeeding. -/
structure EngineBehavior where
  newEngine : Option TemplateFilters → Except String Unit
  loadAllTemplates : Except String Unit
  executeWithCallback : Except String (List ResultEvent)
  newThreadSafeEngine : Option TemplateFilters → Except String Unit
  executeNuclei : Except String (List ResultEvent)

/-- The scanner service's collaborators: its cache and the engine. -/
structure ScannerEnv where
  cache : ResultCache
  engine : EngineBehavior

/-- What one `Scan`-family call did: the returned `(ScanResult, error)`
pair, the cache state afterwards, and how many engine constructions and
executions took place. -/
structure ScanOutcome where
  result : ScanResult
  error : Option String
  cache : ResultCache
  engineConstructions : Nat
  engineExecutions : Nat
deriving DecidableEq, Repr

/-- `Scan`: compute the key, serve a cache hit immediately, otherwise
construct the engine, load templates, execute, and cache the wrapped
result; every failure aborts with the empty `ScanResult` and leaves the
cache untouched. -/
def Scan (env : ScannerEnv) (now : Nat) (target severity protocols : String)
    (templateIDs : List String) : ScanOutcome :=
  match env.cache.get now (scanCacheKey target severity protocols templateIDs) with
  | some result => ⟨result, none, env.cache, 0, 0⟩
  | none =>
    match env.engine.newEngine (buildTemplateFilters severity protocols templateIDs) with
    | .error e => ⟨emptyScanResult, some e, env.cache, 1, 0⟩
    | .ok _ =>
      match env.engine.loadAllTemplates with
      | .error e => ⟨emptyScanResult, some e, env.cache, 1, 0⟩
      | .ok _ =>
        match env.engine.executeWithCallback with
        | .error e => ⟨emptyScanResult, some e, env.cache, 1, 1⟩
        | .ok findings =>
          ⟨⟨target, now, findings⟩, none,
            env.cache.set (scanCacheKey target severity protocols templateIDs)
              ⟨target, now, findings⟩, 1, 1⟩

/-- `ThreadSafeScan`: identical cache/key/result contract, but on the
long-lived thread-safe engine (no `LoadAllTemplates` stage). -/
def ThreadSafeScan (env : ScannerEnv) (now : Nat) (target severity protocols : String)
    (templateIDs : List String) : ScanOutcome :=
  match env.cache.get now (scanCacheKey target severity protocols templateIDs) with
  | some result => ⟨result, none, env.cache, 0, 0⟩
  | none =>
    match env.engine.newThreadSafeEngine (buildTemplateFilters severity protocols templateIDs) with
    | .error e => ⟨emptyScanResult, some e, env.cache, 1, 0⟩
    | .ok _ =>
      match env.engine.executeNuclei with
      | .error e => ⟨emptyScanResult, some e, env.cache, 1, 1⟩
      | .ok findings =>
        ⟨⟨target, now, findings⟩, none,
          env.cache.set (scanCacheKey target severity protocols templateIDs)
            ⟨target, now, findings⟩, 1, 1⟩

/-! ## Protocol dispatcher (`mcpserver`, `types.go` and the `Server` type)

JSON values are embedded at the granularity the dispatcher inspects
them: request ids are `Option String` (`none` is an absent/null id, the
string stands for the opaque string-or-number id), and a request
carries the outcome of unmarshalling its params into the two parameter
shapes the dispatcher tries (`InitializeRequest`, `CallToolRequest`);
`none` means that unmarshalling fails.  Each call to `sendResponse` /
`sendError` is one element of the emitted-response list. -/

/-- JSON-RPC error codes from `types.go`. -/
def ParseErrorCode : Int := -32700

/-- `InvalidRequest = -32600`. -/
def InvalidRequestCode : Int := -32600

/-- `MethodNotFound = -32601`. -/
def MethodNotFoundCode : Int := -32601

/-- `InvalidParams = -32602`. -/
def InvalidParamsCode : Int := -32602

/-- `InternalError = -32603`. -/
def InternalErrorCode : Int := -32603

/-- `Implementation`: name and version of a client or server. -/
structure Implementation where
  name : String
  version : String
deriving DecidableEq, Repr

/-- `Tool` (the input schema is opaque payload the dispatcher never
inspects, kept as a list of schema fields). -/
structure Tool where
  name : String
  description : String
  inputSchema : List (String × String)
deriving DecidableEq, Repr

/-- `Resource`. -/
structure Resource where
  uri : String
  name : String
  description : String
  mimeType : String
deriving DecidableEq, Repr

/-- `ResourceTemplate`. -/
structure ResourceTemplate where
  uriTemplate : String
  name : String
  description : String
  mimeType : String
deriving DecidableEq, Repr

/-- `InitializeRequest` params. -/
structure InitializeRequest where
  protocolVersion : String
  clientInfo : Implementation
deriving DecidableEq, Repr

/-- `InitializeResult` (server capabilities are a fixed record the
claims never inspect and are left out of the embedding). -/
structure InitializeResult where
  protocolVersion : String
  serverInfo : Implementation
  instructions : String
deriving DecidableEq, Repr

/-- `CallToolRequest` params; `argumentsRepr` is the `%v` rendering of
the opaque arguments map. -/
structure CallToolRequest where
  name : String
  argumentsRepr : String
deriving DecidableEq, Repr

/-- One content block of a tool result. -/
structure Content where
  type : String
  text : String
deriving DecidableEq, Repr

/-- `CallToolResult`. -/
structure CallToolResult where
  content : List Content
  isError : Bool
deriving DecidableEq, Repr

/-- The `result` payloads the dispatcher can put in a response. -/
inductive ResultVal where
  | initResult (r : InitializeResult)
  | toolsList (tools : List Tool)
  | resourcesList (resources : List Resource)
  | templatesList (templates : List ResourceTemplate)
  | callResult (r : CallToolResult)
  | emptyResult
deriving DecidableEq, Repr

/-- The `error` member of a response. -/
structure RespError where
  code : Int
  message : String
deriving DecidableEq, Repr

/-- `JSONRPCResponse`: id plus the optional `result` and `error`
members (`none` = member omitted from the wire object). -/
structure JSONRPCResponse where
  id : Option String
  result : Option ResultVal
  error : Option RespError
deriving DecidableEq, Repr

/-- `JSONRPCRequest` as the dispatcher sees it after decoding. -/
structure JSONRPCRequest where
  id : Option String
  method : String
  paramsInit : Option InitializeRequest
  paramsCall : Option CallToolRequest
deriving DecidableEq, Repr

/-- The `Server` state the dispatcher reads and writes. -/
structure ServerState where
  info : Implementation
  tools : List Tool
  resources : List Resource
  templates : List ResourceTemplate
  initialized : Bool
deriving DecidableEq, Repr

/-- A success response: `result` set, no `error`. -/
def okResponse (id : Option String) (r : ResultVal) : JSONRPCResponse :=
  ⟨id, some r, none⟩

/-- `sendError`: a response with the request's id, no `result` and an
`error` of the given code and message. -/
def errorResponse (id : Option String) (code : Int) (message : String) : JSONRPCResponse :=
  ⟨id, none, some ⟨code, message⟩⟩

/-- The linear lookup inside `handleToolCall` (first tool whose name
matches). -/
def findTool (tools : List Tool) (name : String) : Option Tool :=
  tools.find? fun t => t.name = name

/-- `handleToolCall`: unknown names fail with `"tool not found: …"`;
otherwise the placeholder tool body produces one text content block. -/
def handleToolCall (s : ServerState) (req : CallToolRequest) : Except String CallToolResult :=
  match findTool s.tools req.name with
  | none => .error ("tool not found: " ++ req.name)
  | some _ =>
    .ok ⟨[⟨"text", "Tool '" ++ req.name ++ "' executed with arguments: " ++ req.argumentsRepr⟩],
      false⟩

/-- `handleRequest`: the method switch.  Returns the new server state
and the list of responses written (each `sendResponse`/`sendError` call
contributes one element, in order). -/
def handleRequest (s : ServerState) (req : JSONRPCRequest) :
    ServerState × List JSONRPCResponse :=
  match req.method with
  | "initialize" =>
    match req.paramsInit with
    | none => (s, [errorResponse req.id InvalidParamsCode "Invalid initialization parameters"])
    | some _ =>
      ({ s with initialized := true },
        [okResponse req.id (.initResult ⟨"DRAFT-2025-v1", s.info, "MCP server implemented in Go"⟩)])
  | "tools/list" =>
    if !s.initialized then (s, [errorResponse req.id InvalidRequestCode "Server not initialized"])
    else (s, [okResponse req.id (.toolsList s.tools)])
  | "tools/call" =>
    if !s.initialized then (s, [errorResponse req.id InvalidRequestCode "Server not initialized"])
    else
      match req.paramsCall with
      | none => (s, [errorResponse req.id InvalidParamsCode "Invalid tool call parameters"])
      | some callReq =>
        match handleToolCall s callReq with
        | .error e => (s, [errorResponse req.id InternalErrorCode e])
        | .ok result => (s, [okResponse req.id (.callResult result)])
  | "resources/list" =>
    if !s.initialized then (s, [errorResponse req.id InvalidRequestCode "Server not initialized"])
    else (s, [okResponse req.id (.resourcesList s.resources)])
  | "resources/templates/list" =>
    if !s.initialized then (s, [errorResponse req.id InvalidRequestCode "Server not initialized"])
    else (s, [okResponse req.id (.templatesList s.templates)])
  | "ping" => (s, [okResponse req.id .emptyResult])
  | m => (s, [errorResponse req.id MethodNotFoundCode ("Method not found: " ++ m)])

/-! ## Helper lemmas -/

/-- Assignment followed by lookup of the same key yields the assigned
value. -/
theorem mapGet_mapSet_self (m : List (String × ScanResult)) (k : String) (v : ScanResult) :
    mapGet (mapSet m k v) k = some v := by
  induction m with
  | nil => simp [mapSet, mapGet]
  | cons hd tl ih =>
    obtain ⟨k', v'⟩ := hd
    by_cases h : k' = k
    · simp [mapSet, mapGet, h]
    · simp [mapSet, mapGet, h, ih]

/-- A successful lookup comes from an entry of the association list. -/
theorem mapGet_eq_some_mem {m : List (String × ScanResult)} {k : String} {v : ScanResult}
    (h : mapGet m k = some v) : (k, v) ∈ m := by
  induction m with
  | nil => simp [mapGet] at h
  | cons hd tl ih =>
    obtain ⟨k', v'⟩ := hd
    by_cases hk : k' = k
    · subst hk
      simp [mapGet] at h
      subst h
      exact List.mem_cons_self _ _
    · simp [mapGet, hk] at h
      exact List.mem_cons_of_mem _ (ih h)

/-! ## Claim C1 — corrected -/

/-- C1 counterexample: `Set` does not stamp a creation time, so a value
whose own `ScanTime` is already older than the TTL misses on an
immediate `Get` (TTL 5, stored `ScanTime` 0, current time 100) —
contradicting the claim that the immediate `Get` always reports found
with the stored value. -/
theorem cache_set_stale_misses_immediately :
    (ResultCache.set ⟨[], 5⟩ "k" ⟨"t", 0, []⟩).get 100 "k" = none := by
  decide

/-- C1 (amended): `Set(k, r)` unconditionally overwrites any existing
entry for `k`, storing `r` unchanged; the entry's effective creation
time is `r`'s own `ScanTime` (nothing is stamped by `Set`), so an
immediate `Get(k)` returns exactly `r` precisely when `now - r.ScanTime`
does not exceed the TTL, and misses otherwise. -/
theorem cache_set_then_get (c : ResultCache) (now : Nat) (key : String) (r : ScanResult) :
    (c.set key r).get now key =
      if now - r.scanTime > c.expiry then none else some r := by
  unfold ResultCache.get ResultCache.set
  simp [mapGet_mapSet_self]

/-! ## Claim C7 — confirmed -/

/-- C7: an entry older than the TTL is reported not-found by `Get`,
yet its value still appears in `GetAll`'s output; `Get` and `GetAll`
never remove anything (both are read-only on the store). -/
theorem expired_get_misses_getAll_keeps (c : ResultCache) (now : Nat) (key : String)
    (r : ScanResult) (hmem : mapGet c.cache key = some r)
    (hexp : now - r.scanTime > c.expiry) :
    c.get now key = none ∧ r ∈ c.getAll := by
  constructor
  · unfold ResultCache.get
    rw [hmem]
    simp [hexp]
  · exact List.mem_map.mpr ⟨(key, r), mapGet_eq_some_mem hmem, rfl⟩

/-- C7 witness: a cache with TTL 5 holding one entry stamped at time 0,
read at time 100. -/
theorem expired_get_misses_getAll_keeps_witness :
    (⟨[("k", ⟨"t", 0, []⟩)], 5⟩ : ResultCache).get 100 "k" = none ∧
      (⟨"t", 0, []⟩ : ScanResult) ∈ (⟨[("k", ⟨"t", 0, []⟩)], 5⟩ : ResultCache).getAll :=
  expired_get_misses_getAll_keeps ⟨[("k", ⟨"t", 0, []⟩)], 5⟩ 100 "k" ⟨"t", 0, []⟩
    (by decide) (by decide)

/-! ## Claim C5 — confirmed -/

/-- C5: when the computed cache key hits (Get returns a value), `Scan`
returns that cached result with no error, leaves the cache unchanged,
and performs zero engine constructions and zero engine executions. -/
theorem scan_cache_hit_short_circuits (env : ScannerEnv) (now : Nat)
    (target severity protocols : String) (templateIDs : List String) (r : ScanResult)
    (hhit : env.cache.get now (scanCacheKey target severity protocols templateIDs) = some r) :
    Scan env now target severity protocols templateIDs = ⟨r, none, env.cache, 0, 0⟩ := by
  unfold Scan
  rw [hhit]

/-- A scanner environment whose engine fails on every entry point, used
to exercise the cache-hit path with a visibly never-consulted engine. -/
def hitEnv : ScannerEnv :=
  { cache := ⟨[("t::", ⟨"t", 3, [⟨"n", "info", "t"⟩]⟩)], 10⟩
    engine :=
      { newEngine := fun _ => .error "engine must not be constructed"
        loadAllTemplates := .error "engine must not be consulted"
        executeWithCallback := .error "engine must not be consulted"
        newThreadSafeEngine := fun _ => .error "engine must not be constructed"
        executeNuclei := .error "engine must not be consulted" } }

/-- C5 witness: a populated, unexpired cache entry for target `"t"` with
empty filters; `Scan` returns it with zero engine activity. -/
theorem scan_cache_hit_short_circuits_witness :
    Scan hitEnv 5 "t" "" "" [] =
      ⟨⟨"t", 3, [⟨"n", "info", "t"⟩]⟩, none, hitEnv.cache, 0, 0⟩ :=
  scan_cache_hit_short_circuits hitEnv 5 "t" "" "" [] ⟨"t", 3, [⟨"n", "info", "t"⟩]⟩
    (by decide)

/-! ## Claim C6 — confirmed -/

/-- Whether an engine oracle call failed. -/
def isEngineError {α : Type} (x : Except String α) : Bool :=
  match x with
  | .error _ => true
  | .ok _ => false

/-- C6: on a cache miss, if engine construction, template loading or
execution fails, `Scan` returns a non-nil error with the empty
`ScanResult`, leaves the cache unchanged (no `Set`), and performs at
most one construction and at most one execution (no retry); likewise
for `ThreadSafeScan` with its construction/execution stages. -/
theorem scan_error_propagation (env : ScannerEnv) (now : Nat)
    (target severity protocols : String) (templateIDs : List String) :
    (env.cache.get now (scanCacheKey target severity protocols templateIDs) = none →
      (isEngineError (env.engine.newEngine (buildTemplateFilters severity protocols templateIDs))
          = true ∨
        isEngineError env.engine.loadAllTemplates = true ∨
        isEngineError env.engine.executeWithCallback = true) →
      (Scan env now target severity protocols templateIDs).error.isSome = true ∧
        (Scan env now target severity protocols templateIDs).result = emptyScanResult ∧
        (Scan env now target severity protocols templateIDs).cache = env.cache ∧
        (Scan env now target severity protocols templateIDs).engineConstructions ≤ 1 ∧
        (Scan env now target severity protocols templateIDs).engineExecutions ≤ 1) ∧
    (env.cache.get now (scanCacheKey target severity protocols templateIDs) = none →
      (isEngineError
          (env.engine.newThreadSafeEngine (buildTemplateFilters severity protocols templateIDs))
          = true ∨
        isEngineError env.engine.executeNuclei = true) →
      (ThreadSafeScan env now target severity protocols templateIDs).error.isSome = true ∧
        (ThreadSafeScan env now target severity protocols templateIDs).result =
          emptyScanResult ∧
        (ThreadSafeScan env now target severity protocols templateIDs).cache = env.cache ∧
        (ThreadSafeScan env now target severity protocols templateIDs).engineConstructions
          ≤ 1 ∧
        (ThreadSafeScan env now target severity protocols templateIDs).engineExecutions ≤ 1) := by
  constructor
  · intro hmiss hfail
    unfold Scan
    rw [hmiss]
    rcases hne : env.engine.newEngine (buildTemplateFilters severity protocols templateIDs) with
      e | u
    · simp
    · rcases hlt : env.engine.loadAllTemplates with e | u'
      · simp
      · rcases hex : env.engine.executeWithCallback with e | findings
        · simp
        · rw [hne, hlt, hex] at hfail
          simp [isEngineError] at hfail
  · intro hmiss hfail
    unfold ThreadSafeScan
    rw [hmiss]
    rcases hne :
        env.engine.newThreadSafeEngine (buildTemplateFilters severity protocols templateIDs) with
      e | u
    · simp
    · rcases hex : env.engine.executeNuclei with e | findings
      · simp
      · rw [hne, hex] at hfail
        simp [isEngineError] at hfail

/-- A scanner environment with an empty cache and an engine failing
every entry point. -/
def failEnv : ScannerEnv :=
  { cache := ⟨[], 10⟩
    engine :=
      { newEngine := fun _ => .error "engine construction failed"
        loadAllTemplates := .error "template load failed"
        executeWithCallback := .error "execution failed"
        newThreadSafeEngine := fun _ => .error "engine construction failed"
        executeNuclei := .error "execution failed" } }

/-- C6 witness: with an empty cache and a failing engine, both scan
variants surface the error, return the empty result, leave the cache
untouched and do not retry. -/
theorem scan_error_propagation_witness :
    ((Scan failEnv 0 "t" "high" "http" []).error.isSome = true ∧
      (Scan failEnv 0 "t" "high" "http" []).result = emptyScanResult ∧
      (Scan failEnv 0 "t" "high" "http" []).cache = failEnv.cache ∧
      (Scan failEnv 0 "t" "high" "http" []).engineConstructions ≤ 1 ∧
      (Scan failEnv 0 "t" "high" "http" []).engineExecutions ≤ 1) ∧
    ((ThreadSafeScan failEnv 0 "t" "high" "http" []).error.isSome = true ∧
      (ThreadSafeScan failEnv 0 "t" "high" "http" []).result = emptyScanResult ∧
      (ThreadSafeScan failEnv 0 "t" "high" "http" []).cache = failEnv.cache ∧
      (ThreadSafeScan failEnv 0 "t" "high" "http" []).engineConstructions ≤ 1 ∧
      (ThreadSafeScan failEnv 0 "t" "high" "http" []).engineExecutions ≤ 1) :=
  ⟨(scan_error_propagation failEnv 0 "t" "high" "http" []).1 (by decide) (Or.inl (by decide)),
    (scan_error_propagation failEnv 0 "t" "high" "http" []).2 (by decide) (Or.inl (by decide))⟩

/-! ## Claim C3 — corrected -/

/-- `String.append` concatenates the underlying character lists. -/
theorem string_data_append (a b : String) : (a ++ b).data = a.data ++ b.data := rfl

/-- If two strings of the shape `segment ++ ":" ++ rest` agree and both
segments are colon-free, the segments agree. -/
theorem colon_free_append_inj (l₁ l₂ r₁ r₂ : List Char)
    (h₁ : (':' : Char) ∉ l₁) (h₂ : (':' : Char) ∉ l₂)
    (h : l₁ ++ ':' :: r₁ = l₂ ++ ':' :: r₂) : l₁ = l₂ := by
  induction l₁ generalizing l₂ with
  | nil =>
    cases l₂ with
    | nil => rfl
    | cons d u =>
      exfalso
      apply h₂
      have hd : d = ':' := by
        have := congrArg (fun l => l.head?) h
        simpa using this.symm
      rw [hd]
      exact List.mem_cons_self _ _
  | cons c t ih =>
    cases l₂ with
    | nil =>
      exfalso
      apply h₁
      have hc : c = ':' := by
        have := congrArg (fun l => l.head?) h
        simpa using this
      rw [hc]
      exact List.mem_cons_self _ _
    | cons d u =>
      have hcd : c = d := by
        have := congrArg (fun l => l.head?) h
        simpa using this
      have htail : t ++ ':' :: r₁ = u ++ ':' :: r₂ := by
        have := congrArg List.tail h
        simpa using this
      have h₁' : (':' : Char) ∉ t := fun hm => h₁ (List.mem_cons_of_mem _ hm)
      have h₂' : (':' : Char) ∉ u := fun hm => h₂ (List.mem_cons_of_mem _ hm)
      rw [hcd, ih u h₁' h₂' htail]

/-- The filtered-variant key always reads `target ++ ":" ++ rest`. -/
theorem scanCacheKey_data (target severity protocols : String) (templateIDs : List String) :
    ∃ rest, (scanCacheKey target severity protocols templateIDs).data =
      target.data ++ ':' :: rest := by
  unfold scanCacheKey createCacheKey
  by_cases h : templateIDs.length > 0
  · refine ⟨severity.data ++ ':' :: (protocols.data ++ ':' :: (joinComma templateIDs).data), ?_⟩
    simp [h, string_data_append]
  · refine ⟨severity.data ++ ':' :: protocols.data, ?_⟩
    simp [h, string_data_append]

/-- C3 counterexample: the `basic:` namespace does collide with the
filtered namespace — the basic key for target `"x:y"` equals the
filtered key for `(target, severity, protocols) = ("basic", "x", "y")`
with no template ids (both are `"basic:x:y"`). -/
theorem basic_key_collides_with_filtered :
    basicScanKey "x:y" = scanCacheKey "basic" "x" "y" [] := by decide

/-- C3 (amended): the two key namespaces are disjoint only for filtered
targets that contain no `':'` and are not the literal string `"basic"`;
under those side conditions the basic key never equals a filtered key. -/
theorem basic_key_distinct_for_plain_targets (t target severity protocols : String)
    (templateIDs : List String) (hc : (':' : Char) ∉ target.data)
    (hne : target ≠ "basic") :
    basicScanKey t ≠ scanCacheKey target severity protocols templateIDs := by
  intro h
  obtain ⟨rest, hrest⟩ := scanCacheKey_data target severity protocols templateIDs
  have hdata := congrArg String.data h
  rw [hrest] at hdata
  have hbasic : (basicScanKey t).data = ['b', 'a', 's', 'i', 'c'] ++ ':' :: t.data := rfl
  rw [hbasic] at hdata
  have hseg := colon_free_append_inj _ _ _ _ (by decide) hc hdata
  apply hne
  obtain ⟨d⟩ := target
  simp only [String.data] at hseg
  rw [← hseg]

/-- C3 witness: a plain host-style filtered target (`"example.com"`)
never produces the basic key of any basic-scan target, here `"x"`. -/
theorem basic_key_distinct_for_plain_targets_witness :
    basicScanKey "x" ≠ scanCacheKey "example.com" "high" "http" [] :=
  basic_key_distinct_for_plain_targets "x" "example.com" "high" "http" []
    (by decide) (by decide)

/-! ## Claim C9 — confirmed -/

/-- C9: the cache key concatenates the template-id list in the
caller-supplied order, so there are non-empty permuted lists (here
`["a","b"]` and `["b","a"]`) that yield different keys for the same
target, severity and protocols. -/
theorem cache_key_order_dependent :
    ∃ (target severity protocols : String) (l₁ l₂ : List String),
      l₁ ≠ [] ∧ l₁.Perm l₂ ∧
        scanCacheKey target severity protocols l₁ ≠
          scanCacheKey target severity protocols l₂ := by
  refine ⟨"t", "s", "p", ["a", "b"], ["b", "a"], by decide, ?_, by decide⟩
  exact List.Perm.swap "b" "a" []

/-! ## Claim C10 — confirmed -/

/-- `strings.Split` never yields an empty slice. -/
theorem splitCommaAux_ne_nil (l : List Char) : splitCommaAux l ≠ [] := by
  cases l with
  | nil => simp [splitCommaAux]
  | cons c t =>
    simp only [splitCommaAux]
    cases h : splitCommaAux t with
    | nil => simp
    | cons h' t' => by_cases hc : c = ',' <;> simp [hc]

/-- Splitting around an explicit comma splits each side separately. -/
theorem splitCommaAux_append (l₁ l₂ : List Char) :
    splitCommaAux (l₁ ++ ',' :: l₂) = splitCommaAux l₁ ++ splitCommaAux l₂ := by
  induction l₁ with
  | nil =>
    show splitCommaAux (',' :: l₂) = [[]] ++ splitCommaAux l₂
    cases h : splitCommaAux l₂ with
    | nil => exact absurd h (splitCommaAux_ne_nil l₂)
    | cons h' t' => simp [splitCommaAux, h]
  | cons c t ih =>
    show splitCommaAux (c :: (t ++ ',' :: l₂)) = splitCommaAux (c :: t) ++ splitCommaAux l₂
    simp only [splitCommaAux]
    rw [ih]
    cases h : splitCommaAux t with
    | nil => exact absurd h (splitCommaAux_ne_nil t)
    | cons h' t' => by_cases hc : c = ',' <;> simp [hc]

/-- Appending `",https"` to a protocols string appends one `"https"`
entry to its comma-split. -/
theorem splitComma_append_https (p : String) :
    splitComma (p ++ ",https") = splitComma p ++ ["https"] := by
  unfold splitComma
  have hdata : (p ++ ",https").data = p.data ++ ',' :: "https".data := rfl
  rw [hdata, splitCommaAux_append]
  have hh : splitCommaAux "https".data = ["https".data] := rfl
  rw [hh]
  simp

/-- The https-stripped protocol list ignores an appended `",https"`. -/
theorem validProtocols_append_https (p : String) :
    validProtocols (p ++ ",https") = validProtocols p := by
  unfold validProtocols
  rw [splitComma_append_https]
  have htr : trimSpace "https" = "https" := rfl
  simp [htr]

/-- Appending `",https"` always changes the cache key (it lengthens the
raw protocols field by six characters). -/
theorem scanCacheKey_append_https_ne (target severity protocols : String)
    (templateIDs : List String) :
    scanCacheKey target severity (protocols ++ ",https") templateIDs ≠
      scanCacheKey target severity protocols templateIDs := by
  intro h
  have hl := congrArg String.length h
  have h6 : (",https" : String).length = 6 := rfl
  by_cases ht : templateIDs.length > 0 <;>
    simp [scanCacheKey, createCacheKey, ht, String.length_append, h6] at hl

/-- Appending `",https"` leaves the engine's template filters unchanged
(for a non-empty protocols string). -/
theorem buildTemplateFilters_append_https (severity protocols : String)
    (templateIDs : List String) (hp : protocols ≠ "") :
    buildTemplateFilters severity (protocols ++ ",https") templateIDs =
      buildTemplateFilters severity protocols templateIDs := by
  have hne : protocols ++ ",https" ≠ "" := by
    intro h
    have hl := congrArg String.length h
    have h6 : (",https" : String).length = 6 := rfl
    simp [String.length_append, h6] at hl
  unfold buildTemplateFilters
  rw [validProtocols_append_https]
  simp [hp, hne]

/-- C10: every trimmed `"https"` entry is removed from the protocol
filter handed to the engine; a protocols string whose entries all trim
to `"https"` produces an empty `ProtocolTypes`; and appending an
`",https"` entry changes the cache key (computed from the raw string)
while leaving the engine filters identical. -/
theorem https_stripped_from_engine_filter (target severity protocols : String)
    (templateIDs : List String) (hp : protocols ≠ "") :
    (∀ q ∈ validProtocols protocols, q ≠ "https") ∧
    ((∀ e ∈ splitComma protocols, trimSpace e = "https") →
      Option.map TemplateFilters.protocolTypes
        (buildTemplateFilters severity protocols templateIDs) = some "") ∧
    scanCacheKey target severity (protocols ++ ",https") templateIDs ≠
      scanCacheKey target severity protocols templateIDs ∧
    buildTemplateFilters severity (protocols ++ ",https") templateIDs =
      buildTemplateFilters severity protocols templateIDs := by
  refine ⟨?_, ?_, scanCacheKey_append_https_ne target severity protocols templateIDs,
    buildTemplateFilters_append_https severity protocols templateIDs hp⟩
  · intro q hq
    have := List.of_mem_filter hq
    simpa using this
  · intro hall
    have hvp0 : validProtocols protocols = [] := by
      unfold validProtocols
      rw [List.filter_eq_nil_iff]
      intro a ha
      obtain ⟨e, he, rfl⟩ := List.mem_map.mp ha
      simp [hall e he]
    simp [buildTemplateFilters, hp, hvp0]

/-- C10 witness: `protocols = "https"` alone — the valid-protocol list
drops it, the filters carry no protocol types, and the `",https"`
append changes the key but not the filters. -/
theorem https_stripped_from_engine_filter_witness :
    Option.map TemplateFilters.protocolTypes (buildTemplateFilters "" "https" []) = some "" ∧
    scanCacheKey "t" "" ("https" ++ ",https") [] ≠ scanCacheKey "t" "" "https" [] ∧
    buildTemplateFilters "" ("https" ++ ",https") [] = buildTemplateFilters "" "https" [] :=
  ⟨(https_stripped_from_engine_filter "t" "" "https" [] (by decide)).2.1 (by decide),
    (https_stripped_from_engine_filter "t" "" "https" [] (by decide)).2.2.1,
    (https_stripped_from_engine_filter "t" "" "https" [] (by decide)).2.2.2⟩

/-! ## Claim C2 — corrected -/

/-- C2 counterexample: a `ping` received in the Uninitialized state is
answered with an empty result, not with an `InvalidRequest` error — the
`ping` arm of the dispatcher performs no initialization check. -/
theorem ping_uninitialized_succeeds :
    handleRequest ⟨⟨"go-mcp-server", "0.1.0"⟩, [], [], [], false⟩
        ⟨some "1", "ping", none, none⟩ =
      (⟨⟨"go-mcp-server", "0.1.0"⟩, [], [], [], false⟩,
        [⟨some "1", some .emptyResult, none⟩]) := by
  decide

/-- C2 (amended): before initialization, `tools/list`,
`resources/list` and `resources/templates/list` fail with
`InvalidRequest` (-32600); after initialization each returns a snapshot
of the corresponding registry collection; `ping` returns the empty
result in either state. -/
theorem list_methods_initialization_gate (s : ServerState) (req : JSONRPCRequest) :
    (s.initialized = false →
      (req.method = "tools/list" ∨ req.method = "resources/list" ∨
          req.method = "resources/templates/list") →
      handleRequest s req =
        (s, [errorResponse req.id InvalidRequestCode "Server not initialized"])) ∧
    (s.initialized = true →
      (req.method = "tools/list" →
        handleRequest s req = (s, [okResponse req.id (.toolsList s.tools)])) ∧
      (req.method = "resources/list" →
        handleRequest s req = (s, [okResponse req.id (.resourcesList s.resources)])) ∧
      (req.method = "resources/templates/list" →
        handleRequest s req = (s, [okResponse req.id (.templatesList s.templates)]))) ∧
    (req.method = "ping" →
      handleRequest s req = (s, [okResponse req.id .emptyResult])) := by
  obtain ⟨id, method, pi, pc⟩ := req
  refine ⟨?_, ?_, ?_⟩
  · intro h hm
    rcases hm with rfl | rfl | rfl <;> simp_all [handleRequest]
  · intro h
    refine ⟨?_, ?_, ?_⟩ <;> intro hm <;> subst hm <;> simp_all [handleRequest]
  · intro hm
    subst hm
    simp [handleRequest]

/-- C2 witness: a concrete uninitialized server rejecting `tools/list`,
then (initialized) serving `tools/list`, and answering `ping`. -/
theorem list_methods_initialization_gate_witness :
    handleRequest ⟨⟨"go-mcp-server", "0.1.0"⟩, [], [], [], false⟩
        ⟨some "1", "tools/list", none, none⟩ =
      (⟨⟨"go-mcp-server", "0.1.0"⟩, [], [], [], false⟩,
        [errorResponse (some "1") InvalidRequestCode "Server not initialized"]) ∧
    handleRequest ⟨⟨"go-mcp-server", "0.1.0"⟩, [], [], [], true⟩
        ⟨some "2", "tools/list", none, none⟩ =
      (⟨⟨"go-mcp-server", "0.1.0"⟩, [], [], [], true⟩,
        [okResponse (some "2") (.toolsList [])]) ∧
    handleRequest ⟨⟨"go-mcp-server", "0.1.0"⟩, [], [], [], true⟩
        ⟨some "3", "ping", none, none⟩ =
      (⟨⟨"go-mcp-server", "0.1.0"⟩, [], [], [], true⟩,
        [okResponse (some "3") .emptyResult]) :=
  ⟨(list_methods_initialization_gate ⟨⟨"go-mcp-server", "0.1.0"⟩, [], [], [], false⟩
      ⟨some "1", "tools/list", none, none⟩).1 rfl (Or.inl rfl),
    ((list_methods_initialization_gate ⟨⟨"go-mcp-server", "0.1.0"⟩, [], [], [], true⟩
      ⟨some "2", "tools/list", none, none⟩).2.1 rfl).1 rfl,
    (list_methods_initialization_gate ⟨⟨"go-mcp-server", "0.1.0"⟩, [], [], [], true⟩
      ⟨some "3", "ping", none, none⟩).2.2 rfl⟩

/-! ## Claim C4 — corrected -/

/-- C4 counterexample: a message with no id (a notification) is still
answered — after initialization, a `ping` notification produces one
response (with null id), where the claim requires none. -/
theorem notification_still_answered :
    (handleRequest ⟨⟨"go-mcp-server", "0.1.0"⟩, [], [], [], true⟩
        ⟨none, "ping", none, none⟩).2 ≠ [] := by
  decide

/-- C4 (amended): after initialization every decoded message — whether
or not it carries an id — receives exactly one Response whose id equals
the request's id (null when absent) and in which exactly one of result
and error is present; the dispatcher never suppresses the response for
an id-less Notification. -/
theorem dispatcher_single_response (s : ServerState) (req : JSONRPCRequest)
    (hinit : s.initialized = true) :
    (handleRequest s req).2.length = 1 ∧
      ∀ r ∈ (handleRequest s req).2,
        r.id = req.id ∧ r.result.isSome = !r.error.isSome := by
  obtain ⟨id, method, pi, pc⟩ := req
  unfold handleRequest
  split <;> try simp [hinit, okResponse, errorResponse]
  all_goals
    first
      | (cases pi <;> simp [okResponse, errorResponse])
      | (cases pc with
          | none => simp [hinit, errorResponse]
          | some callReq =>
            cases h : handleToolCall s callReq <;>
              simp [hinit, h, okResponse, errorResponse])

/-- C4 witness: an initialized server answering an identified `ping`
with exactly one response, echoing the id, result present, no error. -/
theorem dispatcher_single_response_witness :
    (handleRequest ⟨⟨"go-mcp-server", "0.1.0"⟩, [], [], [], true⟩
        ⟨some "9", "ping", none, none⟩).2.length = 1 ∧
      ∀ r ∈ (handleRequest ⟨⟨"go-mcp-server", "0.1.0"⟩, [], [], [], true⟩
        ⟨some "9", "ping", none, none⟩).2,
        r.id = some "9" ∧ r.result.isSome = !r.error.isSome :=
  dispatcher_single_response ⟨⟨"go-mcp-server", "0.1.0"⟩, [], [], [], true⟩
    ⟨some "9", "ping", none, none⟩ rfl

/-! ## Claim C8 — confirmed -/

/-- C8: after initialization, a `tools/call` whose name matches no
registered tool is answered (never a crash — the dispatcher is a total
function producing exactly this one response) with an error Response
carrying the `InternalError` code (-32603) and the descriptive message
`"tool not found: <name>"`. -/
theorem unknown_tool_internal_error (s : ServerState) (req : JSONRPCRequest)
    (callReq : CallToolRequest) (hinit : s.initialized = true)
    (hm : req.method = "tools/call") (hp : req.paramsCall = some callReq)
    (habs : ∀ t ∈ s.tools, t.name ≠ callReq.name) :
    handleRequest s req =
      (s, [errorResponse req.id InternalErrorCode
        ("tool not found: " ++ callReq.name)]) := by
  obtain ⟨id, method, pi, pc⟩ := req
  simp only at hm hp
  subst hm
  subst hp
  have hfind : findTool s.tools callReq.name = none := by
    apply List.find?_eq_none.mpr
    intro t ht
    simp [habs t ht]
  simp [handleRequest, hinit, handleToolCall, hfind]

/-- C8 witness: an initialized server with an empty tool registry
answering `tools/call` for the unregistered name `"echo"`. -/
theorem unknown_tool_internal_error_witness :
    handleRequest ⟨⟨"go-mcp-server", "0.1.0"⟩, [], [], [], true⟩
        ⟨some "5", "tools/call", none, some ⟨"echo", "map[]"⟩⟩ =
      (⟨⟨"go-mcp-server", "0.1.0"⟩, [], [], [], true⟩,
        [errorResponse (some "5") InternalErrorCode "tool not found: echo"]) :=
  unknown_tool_internal_error ⟨⟨"go-mcp-server", "0.1.0"⟩, [], [], [], true⟩
    ⟨some "5", "tools/call", none, some ⟨"echo", "map[]"⟩⟩ ⟨"echo", "map[]"⟩
    rfl rfl rfl (by simp)

end NucleiMCP
